import Mathlib

/-!
Shallow embedding of the gadget-metadata reconciliation engine
(package `types` of inspektor-gadget: `GadgetMetadata`, `Validate`,
`Populate` and their helpers).

Conventions of the embedding:
* Go maps (`map[string]T`) become association lists `List (String × T)`;
  a nil map becomes `none` in `Option (List (String × T))` where the nil /
  empty distinction matters (the `Tracers` and `Structs` fields).
* Errors become `Option String` (none = nil error) or `List String` for
  the multierror aggregation: `multierror.Append` flattens, so an
  aggregate error is the list of individual messages and a nil result is
  the empty list.
* Mutation through pointer receivers becomes explicit state passing: a
  function that may mutate the document takes it and returns the updated
  value.
* btf types become the inductive `BtfType`; the pointer graph of the Go
  library is acyclic in well-formed BTF, which the inductive embedding
  reflects.  A separate fuel-indexed model over an explicit reference
  table (`getUnderlyingTypeFuel`) is used to study the behaviour of the
  typedef-chain recursion on a cyclic graph, which the inductive type
  cannot represent.
-/

namespace Types

/-- Width constants of the columns package. Modelled from the spec:
pkg/columns is not under src/; §4.2 gives the policy (max digit count
including sign for signed widths, max digit count for unsigned widths,
length of "false" for booleans, 1 for characters). -/
def MaxCharsInt8 : Nat := 4

/-- Modelled from the spec: max digit count including sign for int16. -/
def MaxCharsInt16 : Nat := 6

/-- Modelled from the spec: max digit count including sign for int32. -/
def MaxCharsInt32 : Nat := 11

/-- Modelled from the spec: max digit count including sign for int64. -/
def MaxCharsInt64 : Nat := 20

/-- Modelled from the spec: max digit count for uint8. -/
def MaxCharsUint8 : Nat := 3

/-- Modelled from the spec: max digit count for uint16. -/
def MaxCharsUint16 : Nat := 5

/-- Modelled from the spec: max digit count for uint32. -/
def MaxCharsUint32 : Nat := 10

/-- Modelled from the spec: max digit count for uint64. -/
def MaxCharsUint64 : Nat := 20

/-- Modelled from the spec: the width of the longer of "true" and "false". -/
def MaxCharsBool : Nat := 5

/-- Modelled from the spec: width 1 for a character column. -/
def MaxCharsChar : Nat := 1

/-- DefaultColumnWidth from the source. -/
def DefaultColumnWidth : Nat := 16

/-- traceMapPrefix from the source: the marker carried by trace-map
variables, kept aligned with include/gadget/macros.h. -/
def traceMapMarker : String := "gadget_trace_map_"

/-- Modelled from the spec: gadgets.MntNsIdTypeName, the reserved
namespace-id marker type name (the gadgets package is not under src/). -/
def MntNsIdTypeName : String := "mnt_ns_id_t"

/-- Alignment is a string enum in the source. -/
def AlignmentNone : String := ""

/-- Left alignment constant. -/
def AlignmentLeft : String := "left"

/-- Right alignment constant. -/
def AlignmentRight : String := "right"

/-- EllipsisType none constant. -/
def EllipsisNone : String := ""

/-- EllipsisType start constant. -/
def EllipsisStart : String := "start"

/-- EllipsisType middle constant. -/
def EllipsisMiddle : String := "middle"

/-- EllipsisType end constant. -/
def EllipsisEnd : String := "end"

/-- Integer encodings of btf.Int (cilium/ebpf btf library, external). -/
inductive IntEncoding where
  | signed
  | unsigned
  | boolEnc
  | charEnc
  deriving DecidableEq

/-- btf.Type variants relevant to this engine: integers, typedefs,
structures (with ordered named members), variables and anything else.
Each carries its type name (TypeName in the Go library). -/
inductive BtfType where
  | intT (name : String) (size : Nat) (encoding : IntEncoding)
  | typedefT (name : String) (ty : BtfType)
  | structT (name : String) (members : List (String × BtfType))
  | varT (name : String) (ty : BtfType)
  | otherT (name : String)

/-- TypeName of a btf type: the name the entry carries. -/
def typeName : BtfType → String
  | .intT n _ _ => n
  | .typedefT n _ => n
  | .structT n _ => n
  | .varT n _ => n
  | .otherT n => n

/-- ebpf.MapType variants relevant to this engine. -/
inductive MapType where
  | ringBuf
  | perfEventArray
  | hash
  | arrayMap
  | unspecified
  deriving Repr, DecidableEq

/-- MapType.String of the ebpf library, for the wrong-type error text. -/
def mapTypeString : MapType → String
  | .ringBuf => "RingBuf"
  | .perfEventArray => "PerfEventArray"
  | .hash => "Hash"
  | .arrayMap => "Array"
  | .unspecified => "Unspecified"

/-- ebpf.MapSpec: the fields this engine reads (Name, Type, Value). -/
structure MapSpec where
  name : String
  mtype : MapType
  value : Option BtfType

/-- ebpf.CollectionSpec: a map table and the global type table. -/
structure CollectionSpec where
  maps : List (String × MapSpec)
  types : List BtfType

/-- FieldAttributes from the source. -/
structure FieldAttributes where
  width : Nat
  minWidth : Nat
  maxWidth : Nat
  alignment : String
  hidden : Bool
  ellipsis : String
  template : String
  deriving Repr, DecidableEq

/-- Field from the source; annotation values are opaque to the engine and
modelled as strings. -/
structure Field where
  name : String
  description : String
  attributes : FieldAttributes
  annotations : List (String × String)
  deriving Repr, DecidableEq

/-- Struct from the source: an ordered sequence of fields. -/
structure Struct where
  fields : List Field
  deriving Repr, DecidableEq

/-- Tracer from the source. -/
structure Tracer where
  mapName : String
  structName : String
  deriving Repr, DecidableEq

/-- GadgetMetadata from the source; Tracers and Structs keep the Go
nil-map / empty-map distinction through Option. -/
structure GadgetMetadata where
  name : String
  description : String
  tracers : Option (List (String × Tracer))
  structs : Option (List (String × Struct))
  deriving Repr, DecidableEq

/-- Lookup in an association list, the embedding of a Go map read. -/
def listLookup {κ α : Type} [DecidableEq κ] (k : κ) : List (κ × α) → Option α
  | [] => none
  | p :: rest => if p.1 = k then some p.2 else listLookup k rest

/-- Insert into an association list, the embedding of a Go map write: it
replaces the value at an existing key and otherwise appends. -/
def listInsert {α : Type} (k : String) (v : α) : List (String × α) → List (String × α)
  | [] => [(k, v)]
  | p :: rest => if p.1 = k then (k, v) :: rest else p :: listInsert k v rest

/-- Wrap a name in double quotes, the effect of the %q format verb. -/
def quoteName (s : String) : String := "\"" ++ s ++ "\""

/-- getUnderlyingType from the source: follow a typedef chain down to the
first type that is not itself a typedef.  The Go function takes the
typedef (its Name and Type fields, passed here as the two arguments) and
returns a (Type, error) pair whose error component is nil on every path,
so the embedding returns the type directly. -/
def getUnderlyingType : String → BtfType → BtfType
  | _, .typedefT n2 t2 => getUnderlyingType n2 t2
  | _, t => t

/-- Whether a btf type is a typedef entry. -/
def isTypedef : BtfType → Bool
  | .typedefT _ _ => true
  | _ => false

/-- The result of getUnderlyingType is never itself a typedef: the chain
is followed to its end. -/
theorem getUnderlyingType_not_typedef :
    ∀ (n : String) (t : BtfType), isTypedef (getUnderlyingType n t) = false
  | _, .typedefT n2 t2 => getUnderlyingType_not_typedef n2 t2
  | _, .intT _ _ _ => rfl
  | _, .structT _ _ => rfl
  | _, .varT _ _ => rfl
  | _, .otherT _ => rfl

/-- The switch of getColumnSize on every case but the typedef one: an
integer kind, size and signedness maps to its width constant and
anything else falls through to DefaultColumnWidth. -/
def getColumnSizeConcrete : BtfType → Nat
  | .intT _ size enc =>
      match enc with
      | .signed =>
          match size with
          | 1 => MaxCharsInt8
          | 2 => MaxCharsInt16
          | 4 => MaxCharsInt32
          | 8 => MaxCharsInt64
          | _ => DefaultColumnWidth
      | .unsigned =>
          match size with
          | 1 => MaxCharsUint8
          | 2 => MaxCharsUint16
          | 4 => MaxCharsUint32
          | 8 => MaxCharsUint64
          | _ => DefaultColumnWidth
      | .boolEnc => MaxCharsBool
      | .charEnc => MaxCharsChar
  | _ => DefaultColumnWidth

/-- getColumnSize from the source.  The Go typedef case recurses on the
type resolved through getUnderlyingType; that resolved type is never a
typedef (getUnderlyingType_not_typedef), so the recursive call always
lands in the non-typedef switch captured by getColumnSizeConcrete, and
getColumnSize_typedef below recovers the recursive equation of the
source verbatim. -/
def getColumnSize : BtfType → Nat
  | .typedefT n t => getColumnSizeConcrete (getUnderlyingType n t)
  | t => getColumnSizeConcrete t

/-- The recursive equation of the Go typedef case. -/
theorem getColumnSize_typedef (n : String) (t : BtfType) :
    getColumnSize (BtfType.typedefT n t) = getColumnSize (getUnderlyingType n t) := by
  have h := getUnderlyingType_not_typedef n t
  simp only [getColumnSize]
  cases hu : getUnderlyingType n t with
  | typedefT n2 t2 => rw [hu] at h; simp [isTypedef] at h
  | intT nm sz enc => rfl
  | structT nm ms => rfl
  | varT nm ty => rfl
  | otherT nm => rfl

/-- strings.HasPrefix on the character-list view of strings, which the
kernel evaluates directly. -/
def strHasPrefix (pre s : String) : Bool := List.isPrefixOf pre.data s.data

/-- strings.TrimPrefix: remove the leading characters of the marker (the
callers guard with strHasPrefix, under which this is exactly the Go
function). -/
def strTrimPrefix (pre s : String) : String := String.mk (s.data.drop pre.data.length)

/-- getGadgetIdentByPrefix from the source, the scan over the type table:
skip every entry that is not a variable, and on the first variable whose
name carries the marker return the name with the marker removed; return
the empty string when no variable matches. -/
def gadgetIdentScan (pre : String) : List BtfType → String
  | [] => ""
  | t :: rest =>
      match t with
      | .varT n _ =>
          if strHasPrefix pre n then strTrimPrefix pre n else gadgetIdentScan pre rest
      | _ => gadgetIdentScan pre rest

/-- getGadgetIdentByPrefix applied to a collection spec. -/
def getGadgetIdentByPrefix (spec : CollectionSpec) (pre : String) : String :=
  gadgetIdentScan pre spec.types

/-- getTracerMapFromeBPF from the source: look the scanned identifier up
in the map table; a missing key gives none (the nil pointer in Go). -/
def getTracerMapFromeBPF (spec : CollectionSpec) : Option MapSpec :=
  listLookup (getGadgetIdentByPrefix spec traceMapMarker) spec.maps

/-- validateTraceMap from the source: the map must be a ring buffer or a
perf event array, must carry value type information, and that value must
be a structure (no alias resolution is performed on it). -/
def validateTraceMap (traceMap : MapSpec) : Option String :=
  if traceMap.mtype ≠ MapType.ringBuf ∧ traceMap.mtype ≠ MapType.perfEventArray then
    some ("map " ++ quoteName traceMap.name ++
      " has a wrong type, expected: ringbuf or perf event array, got: " ++
      mapTypeString traceMap.mtype)
  else
    match traceMap.value with
    | none =>
        some ("map " ++ quoteName traceMap.name ++
          " does not have BTF information its value")
    | some v =>
        match v with
        | .structT _ _ => none
        | _ =>
            some ("value of BPF map " ++ quoteName traceMap.name ++
              " is not a structure")

/-- Errors of one tracer entry inside validateTracers: missing mapName,
missing structName, a structName that does not key into Structs, a
mapName absent from the map table (which skips the remaining check for
that tracer), and otherwise the trace-map check. -/
def tracerEntryErrs (m : GadgetMetadata) (spec : CollectionSpec)
    (name : String) (tracer : Tracer) : List String :=
  (if tracer.mapName = "" then
    ["tracer " ++ quoteName name ++ " is missing mapName"] else []) ++
  (if tracer.structName = "" then
    ["tracer " ++ quoteName name ++ " is missing structName"] else []) ++
  (if (listLookup tracer.structName (m.structs.getD [])).isNone then
    ["tracer " ++ quoteName name ++ " references unknown struct " ++
      quoteName tracer.structName] else []) ++
  (match listLookup tracer.mapName spec.maps with
   | none => ["map " ++ quoteName tracer.mapName ++ " not found in eBPF object"]
   | some ebpfm =>
       match validateTraceMap ebpfm with
       | some err => [err]
       | none => [])

/-- validateTracers from the source: the temporary one-tracer limitation,
then the per-entry checks over every tracer. -/
def validateTracers (m : GadgetMetadata) (spec : CollectionSpec) : List String :=
  (if (m.tracers.getD []).length > 1 then ["only one tracer is allowed"] else []) ++
  (m.tracers.getD []).flatMap (fun p => tracerEntryErrs m spec p.1 p.2)

/-- TypeByName of the btf library for a structure target: the first
structure entry of the type table carrying the requested name (entries of
other kinds are not assignable to the target and are passed over). -/
def typesStructByName (types : List BtfType) (name : String) :
    Option (List (String × BtfType)) :=
  types.findSome? fun t =>
    match t with
    | .structT n ms => if n = name then some ms else none
    | _ => none

/-- Errors of one Structs entry inside validateStructs: a failed struct
lookup reports and skips the field checks for that entry; otherwise each
declared field name missing from the compiled structure members reports.
The two Go maps built by the loop become association-list folds; the
range over mapStructFields becomes iteration over that list. -/
def structEntryErrs (spec : CollectionSpec) (name : String) (mapStruct : Struct) :
    List String :=
  match typesStructByName spec.types name with
  | none =>
      ["looking for struct " ++ quoteName name ++ " in eBPF object: not found"]
  | some members =>
      let mapStructFields := mapStruct.fields.foldl (fun acc f => listInsert f.name f acc) []
      let btfStructFields := members.foldl (fun acc mem => listInsert mem.1 mem acc) []
      mapStructFields.filterMap fun p =>
        if (listLookup p.1 btfStructFields).isNone then
          some ("field " ++ quoteName p.1 ++ " not found in eBPF struct " ++
            quoteName name)
        else none

/-- validateStructs from the source. -/
def validateStructs (m : GadgetMetadata) (spec : CollectionSpec) : List String :=
  (m.structs.getD []).flatMap fun p => structEntryErrs spec p.1 p.2

/-- Validate from the source: the multierror aggregation of the name
check, the tracer checks and the struct checks; nil error = empty list. -/
def Validate (m : GadgetMetadata) (spec : CollectionSpec) : List String :=
  (if m.name = "" then ["gadget name is required"] else []) ++
  validateTracers m spec ++ validateStructs m spec

/-- State-threaded form of the validateTracers loop: the document and the
spec are carried through every iteration; the Go loop body contains no
assignment to either, so each step returns the carried state as it
received it while accumulating the error list. -/
def validateTracersRun (st : GadgetMetadata × CollectionSpec) :
    (GadgetMetadata × CollectionSpec) × List String :=
  (st.1.tracers.getD []).foldl
    (fun acc p => (acc.1, acc.2 ++ tracerEntryErrs acc.1.1 acc.1.2 p.1 p.2))
    (st, if (st.1.tracers.getD []).length > 1 then ["only one tracer is allowed"] else [])

/-- State-threaded form of the validateStructs loop. -/
def validateStructsRun (st : GadgetMetadata × CollectionSpec) :
    (GadgetMetadata × CollectionSpec) × List String :=
  (st.1.structs.getD []).foldl
    (fun acc p => (acc.1, acc.2 ++ structEntryErrs acc.1.2 p.1 p.2))
    (st, [])

/-- State-threaded form of Validate: the receiver and the spec flow
through the name check and both helper loops and are returned alongside
the aggregated error list. -/
def ValidateRun (m : GadgetMetadata) (spec : CollectionSpec) :
    (GadgetMetadata × CollectionSpec) × List String :=
  let e0 := if m.name = "" then ["gadget name is required"] else []
  let r1 := validateTracersRun (m, spec)
  let r2 := validateStructsRun r1.1
  (r2.1, e0 ++ r1.2 ++ r2.2)

/-- The field synthesized by populateStruct for one structure member:
placeholder description, width from getColumnSize, left alignment, end
ellipsis, and zero values everywhere else. -/
def synthesizeField (memberName : String) (memberType : BtfType) : Field :=
  { name := memberName
  , description := "TODO: Fill field description"
  , attributes :=
    { width := getColumnSize memberType
    , minWidth := 0
    , maxWidth := 0
    , alignment := AlignmentLeft
    , hidden := false
    , ellipsis := EllipsisEnd
    , template := "" }
  , annotations := [] }

/-- The member walk of populateStruct: for each compiled member in
declared order, skip the reserved timestamp name, skip a member whose
type name is the namespace-id marker, skip a member whose name is
already declared, and otherwise synthesize a field. -/
def newStructFields (existing : List String) (members : List (String × BtfType)) :
    List Field :=
  members.filterMap fun mem =>
    if mem.1 = "timestamp" then none
    else if typeName mem.2 = MntNsIdTypeName then none
    else if mem.1 ∈ existing then none
    else some (synthesizeField mem.1 mem.2)

/-- The Structs-table update performed by populateStruct: read the
(possibly zero-valued) Struct under the compiled structure name, collect
the names of its fields once, append the fields synthesized by the
member walk, and write the Struct back. -/
def popStructMap (structs : List (String × Struct)) (structName : String)
    (members : List (String × BtfType)) : List (String × Struct) :=
  let gadgetStruct := (listLookup structName structs).getD { fields := [] }
  let gadgetStruct2 : Struct :=
    { fields := gadgetStruct.fields ++
        newStructFields (gadgetStruct.fields.map Field.name) members }
  listInsert structName gadgetStruct2 structs

/-- populateStruct from the source: the nil check on Structs followed by
the update popStructMap of the Structs table. -/
def populateStruct (m : GadgetMetadata) (structName : String)
    (members : List (String × BtfType)) : GadgetMetadata :=
  { m with structs := some (popStructMap (m.structs.getD []) structName members) }

/-- The tracer search loop of populateTracers: whether some existing
tracer entry of the document uses the given map name. -/
def tracerUsingMap (m : GadgetMetadata) (mapName : String) : Bool :=
  (m.tracers.getD []).any fun p => p.2.mapName == mapName

/-- The conditional tracer add of populateTracers: when no tracer uses
the located map name, write a new tracer keyed by the map name. -/
def addTracerFor (m : GadgetMetadata) (mapName sname : String) : GadgetMetadata :=
  if tracerUsingMap m mapName then m
  else
    { m with
      tracers := some (listInsert mapName
        { mapName := mapName, structName := sname } (m.tracers.getD [])) }

/-- populateTracers from the source: locate the trace map (no map found
is a silent no-op), validate it, then add a tracer keyed by the map name
unless some existing tracer already uses that map name, and populate the
struct of the map value.  The fallback branch of the inner match is
unreachable: validateTraceMap returning none guarantees the value is a
structure (the Go type assertion would panic there). -/
def populateTracers (m : GadgetMetadata) (spec : CollectionSpec) :
    GadgetMetadata × Option String :=
  match getTracerMapFromeBPF spec with
  | none => (m, none)
  | some traceMap =>
      match validateTraceMap traceMap with
      | some err => (m, some ("trace map is invalid: " ++ err))
      | none =>
          match traceMap.value with
          | some (.structT sname members) =>
              (populateStruct (addTracerFor m traceMap.name sname) sname members, none)
          | _ => (m, some "panic: trace map value is not a structure")

/-- Steps 1 and 2 of Populate: substitute placeholder name and
description when empty and replace nil Tracers and Structs with empty
maps (named separately from Populate for the proofs below; the source
inlines these statements at the top of Populate). -/
def populateDefaults (m : GadgetMetadata) : GadgetMetadata :=
  let m1 := if m.name = "" then { m with name := "TODO: Fill the gadget name" } else m
  let m2 := if m1.description = "" then
    { m1 with description := "TODO: Fill the gadget description" } else m1
  let m3 := if m2.tracers.isNone then { m2 with tracers := some [] } else m2
  if m3.structs.isNone then { m3 with structs := some [] } else m3

/-- Populate from the source: substitute placeholder name and
description, replace nil Tracers and Structs with empty maps, then run
populateTracers, wrapping its error. -/
def Populate (m : GadgetMetadata) (spec : CollectionSpec) :
    GadgetMetadata × Option String :=
  match populateTracers (populateDefaults m) spec with
  | (m5, some err) => (m5, some ("handling trace maps: " ++ err))
  | (m5, none) => (m5, none)

/-- Nodes of the explicit reference-table model of the btf type graph,
used to study the typedef-chain recursion on graphs the inductive
BtfType cannot represent (a typedef whose chain revisits itself).  A
typedef node names its target by table key, exactly as the Go values
reference each other by pointer. -/
inductive TypeNode where
  | nInt (name : String) (size : Nat) (encoding : IntEncoding)
  | typedefNode (name : String) (target : Nat)
  | nStruct (name : String)
  | nOther (name : String)
  deriving DecidableEq

/-- Fuel-indexed run of the getUnderlyingType recursion over a reference
table: each recursive call of the Go function consumes one unit of fuel,
and none at exhausted fuel means the recursion has not completed within
that many calls.  The Go source imposes no bound of its own and has no
MalformedTypeChain error value. -/
def getUnderlyingTypeFuel (table : List (Nat × TypeNode)) :
    Nat → Nat → Option TypeNode
  | 0, _ => none
  | fuel + 1, id =>
      match listLookup id table with
      | some (.typedefNode _ target) => getUnderlyingTypeFuel table fuel target
      | some node => some node
      | none => none

/-- A one-entry table whose typedef is its own target: the smallest
cyclic alias chain. -/
def cyclicTypeTable : List (Nat × TypeNode) := [(0, TypeNode.typedefNode "a" 0)]

/-- Modelled from the claim wording, for comparison with the source
check: the kind of a value type after following alias/typedef chains. -/
def resolveAliases : BtfType → BtfType
  | .typedefT n t => getUnderlyingType n t
  | t => t


/-- Reading an association list after a write: the written key sees the
new value, every other key is untouched. -/
theorem listLookup_listInsert {α : Type} (k k2 : String) (v : α) :
    ∀ l : List (String × α),
      listLookup k2 (listInsert k v l) = if k = k2 then some v else listLookup k2 l
  | [] => by
      by_cases h : k = k2 <;> simp [listInsert, listLookup, h]
  | p :: rest => by
      by_cases hp : p.1 = k
      · by_cases h : k = k2 <;>
          simp [listInsert, listLookup, hp, h, listLookup_listInsert k k2 v rest]
      · have hrec := listLookup_listInsert k k2 v rest
        by_cases h2 : p.1 = k2
        · have hk : ¬ k = k2 := fun he => hp (he ▸ h2)
          have hk2 : ¬ k2 = k := fun he => hk he.symm
          simp [listInsert, listLookup, hp, h2, hk, hk2]
        · simp [listInsert, listLookup, hp, h2, hrec]

/-- Writing the value a key already holds leaves the list unchanged. -/
theorem listInsert_of_lookup {α : Type} (k : String) (v : α) :
    ∀ l : List (String × α), listLookup k l = some v → listInsert k v l = l
  | [], h => by simp [listLookup] at h
  | p :: rest, h => by
      by_cases hp : p.1 = k
      · simp only [listLookup, hp, if_pos] at h
        obtain rfl : p.2 = v := by injection h
        simp [listInsert, hp]
        exact Prod.ext hp.symm rfl
  
      · simp only [listLookup, hp, if_neg, if_false] at h
        simp [listInsert, hp, listInsert_of_lookup k v rest h]

/-- The written pair is a member of the list after the write. -/
theorem mem_listInsert_self {α : Type} (k : String) (v : α) :
    ∀ l : List (String × α), (k, v) ∈ listInsert k v l
  | [] => by simp [listInsert]
  | p :: rest => by
      by_cases hp : p.1 = k <;>
        simp [listInsert, hp, mem_listInsert_self k v rest]

/-- A successful lookup exhibits a member of the list. -/
theorem listLookup_mem {κ α : Type} [DecidableEq κ] (k : κ) (v : α) :
    ∀ l : List (κ × α), listLookup k l = some v → (k, v) ∈ l
  | [], h => by simp [listLookup] at h
  | p :: rest, h => by
      by_cases hp : p.1 = k
      · simp only [listLookup, hp, if_pos] at h
        have hv : p.2 = v := by injection h
        have hpkv : p = (k, v) := Prod.ext hp hv
        simp [hpkv]
      · simp only [listLookup, hp, if_neg, if_false] at h
        simp [listLookup_mem k v rest h]

/-- Key presence in the association list built by folding writes over a
list of records, keyed by a projection: a key is present exactly when
some record carries it or it was present initially. -/
theorem listLookup_foldl_listInsert {α : Type} (key : α → String) (n : String) :
    ∀ (l : List α) (acc : List (String × α)),
      (listLookup n (l.foldl (fun a f => listInsert (key f) f a) acc)).isSome = true
        ↔ n ∈ l.map key ∨ (listLookup n acc).isSome = true
  | [], acc => by simp
  | f :: l, acc => by
      rw [List.foldl_cons]
      rw [listLookup_foldl_listInsert key n l (listInsert (key f) f acc)]
      rw [listLookup_listInsert]
      by_cases h : key f = n
      · simp [h]
      · simp only [List.map_cons, List.mem_cons, if_neg h]
        constructor
        · rintro (hl | hr)
          · exact Or.inl (Or.inr hl)
          · exact Or.inr hr
        · rintro ((he | hl) | hr)
          · exact absurd he.symm h
          · exact Or.inl hl
          · exact Or.inr hr


/-- The name of a synthesized field is the member name. -/
theorem synthesizeField_name (n : String) (t : BtfType) :
    (synthesizeField n t).name = n := rfl

/-- Membership in the member walk: a field is synthesized exactly for a
member that passes the three skip guards. -/
theorem mem_newStructFields {f : Field} {ex : List String}
    {ms : List (String × BtfType)} :
    f ∈ newStructFields ex ms ↔
      ∃ mem, mem ∈ ms ∧ mem.1 ≠ "timestamp" ∧ typeName mem.2 ≠ MntNsIdTypeName ∧
        mem.1 ∉ ex ∧ f = synthesizeField mem.1 mem.2 := by
  unfold newStructFields
  rw [List.mem_filterMap]
  constructor
  · rintro ⟨mem, hmem, hf⟩
    by_cases h1 : mem.1 = "timestamp"
    · rw [if_pos h1] at hf; exact absurd hf (by simp)
    rw [if_neg h1] at hf
    by_cases h2 : typeName mem.2 = MntNsIdTypeName
    · rw [if_pos h2] at hf; exact absurd hf (by simp)
    rw [if_neg h2] at hf
    by_cases h3 : mem.1 ∈ ex
    · rw [if_pos h3] at hf; exact absurd hf (by simp)
    rw [if_neg h3] at hf
    have : synthesizeField mem.1 mem.2 = f := by injection hf
    exact ⟨mem, hmem, h1, h2, h3, this.symm⟩
  · rintro ⟨mem, hmem, h1, h2, h3, rfl⟩
    exact ⟨mem, hmem, by simp [h1, h2, h3]⟩

/-- The member walk synthesizes nothing when every member that passes
the two name-based skip guards is already declared. -/
theorem newStructFields_eq_nil_of (ex2 : List String)
    (ms : List (String × BtfType))
    (h : ∀ mem ∈ ms, mem.1 ≠ "timestamp" → typeName mem.2 ≠ MntNsIdTypeName →
      mem.1 ∈ ex2) :
    newStructFields ex2 ms = [] := by
  unfold newStructFields
  rw [List.filterMap_eq_nil_iff]
  intro mem hmem
  by_cases h1 : mem.1 = "timestamp"
  · simp [h1]
  by_cases h2 : typeName mem.2 = MntNsIdTypeName
  · simp [h1, h2]
  simp [h1, h2, h mem hmem h1 h2]

/-- Running the member walk again, with the names it just synthesized
added to the declared set, synthesizes nothing further. -/
theorem newStructFields_rerun (ex : List String) (ms : List (String × BtfType)) :
    newStructFields (ex ++ (newStructFields ex ms).map Field.name) ms = [] := by
  apply newStructFields_eq_nil_of
  intro mem hmem h1 h2
  rw [List.mem_append]
  by_cases h3 : mem.1 ∈ ex
  · exact Or.inl h3
  · refine Or.inr (List.mem_map.mpr ⟨synthesizeField mem.1 mem.2, ?_, rfl⟩)
    exact mem_newStructFields.mpr ⟨mem, hmem, h1, h2, h3, rfl⟩

/-- Running the Structs-table update twice with the same structure is
the same as running it once. -/
theorem popStructMap_idem (L : List (String × Struct)) (s : String)
    (ms : List (String × BtfType)) :
    popStructMap (popStructMap L s ms) s ms = popStructMap L s ms := by
  unfold popStructMap
  set gs : Struct := (listLookup s L).getD { fields := [] } with hgs
  set nf : List Field := newStructFields (gs.fields.map Field.name) ms with hnf
  set gs2 : Struct := { fields := gs.fields ++ nf } with hgs2
  have h2 : listLookup s (listInsert s gs2 L) = some gs2 := by
    rw [listLookup_listInsert]; simp
  rw [h2]
  simp only [Option.getD_some]
  have h3 : newStructFields (gs2.fields.map Field.name) ms = [] := by
    rw [hgs2]
    simp only [List.map_append]
    exact newStructFields_rerun (gs.fields.map Field.name) ms
  rw [h3, List.append_nil]
  have h4 : ({ fields := gs2.fields } : Struct) = gs2 := rfl
  rw [h4]
  exact listInsert_of_lookup s gs2 (listInsert s gs2 L) h2

/-- populateStruct keeps the gadget name. -/
theorem populateStruct_name (m : GadgetMetadata) (s : String)
    (ms : List (String × BtfType)) : (populateStruct m s ms).name = m.name := rfl

/-- populateStruct keeps the description. -/
theorem populateStruct_description (m : GadgetMetadata) (s : String)
    (ms : List (String × BtfType)) :
    (populateStruct m s ms).description = m.description := rfl

/-- populateStruct keeps the Tracers table. -/
theorem populateStruct_tracers (m : GadgetMetadata) (s : String)
    (ms : List (String × BtfType)) : (populateStruct m s ms).tracers = m.tracers := rfl

/-- populateStruct writes back the updated Structs table. -/
theorem populateStruct_structs (m : GadgetMetadata) (s : String)
    (ms : List (String × BtfType)) :
    (populateStruct m s ms).structs = some (popStructMap (m.structs.getD []) s ms) := rfl

/-- Running populateStruct twice with the same structure is the same as
running it once. -/
theorem populateStruct_idem (m : GadgetMetadata) (s : String)
    (ms : List (String × BtfType)) :
    populateStruct (populateStruct m s ms) s ms = populateStruct m s ms := by
  obtain ⟨n, d, tr, st⟩ := m
  simp only [populateStruct, Option.getD_some]
  rw [popStructMap_idem]

/-- The tracer search is untouched by populateStruct. -/
theorem tracerUsingMap_populateStruct (m : GadgetMetadata) (s : String)
    (ms : List (String × BtfType)) (k : String) :
    tracerUsingMap (populateStruct m s ms) k = tracerUsingMap m k := rfl

/-- After the conditional tracer add, some tracer uses the map name. -/
theorem tracerUsingMap_addTracerFor (m : GadgetMetadata) (k sn : String) :
    tracerUsingMap (addTracerFor m k sn) k = true := by
  unfold addTracerFor
  by_cases hf : tracerUsingMap m k = true
  · rw [if_pos hf]; exact hf
  · rw [if_neg (by simp [hf])]
    unfold tracerUsingMap
    rw [List.any_eq_true]
    refine ⟨(k, { mapName := k, structName := sn }), ?_, by simp⟩
    simp only [Option.getD_some]
    exact mem_listInsert_self k _ (m.tracers.getD [])

/-- When some tracer already uses the map name, the add is a no-op. -/
theorem addTracerFor_stable (m : GadgetMetadata) (k sn : String)
    (h : tracerUsingMap m k = true) : addTracerFor m k sn = m := by
  unfold addTracerFor
  rw [if_pos h]

/-- The conditional tracer add keeps the gadget name. -/
theorem addTracerFor_name (m : GadgetMetadata) (k sn : String) :
    (addTracerFor m k sn).name = m.name := by
  unfold addTracerFor
  split <;> rfl

/-- The conditional tracer add keeps the description. -/
theorem addTracerFor_description (m : GadgetMetadata) (k sn : String) :
    (addTracerFor m k sn).description = m.description := by
  unfold addTracerFor
  split <;> rfl

/-- The conditional tracer add keeps the Structs table. -/
theorem addTracerFor_structs (m : GadgetMetadata) (k sn : String) :
    (addTracerFor m k sn).structs = m.structs := by
  unfold addTracerFor
  split <;> rfl

/-- The conditional tracer add never leaves a nil Tracers table that was
not nil before. -/
theorem addTracerFor_tracers_ne (m : GadgetMetadata) (k sn : String)
    (h : m.tracers ≠ none) : (addTracerFor m k sn).tracers ≠ none := by
  unfold addTracerFor
  split
  · exact h
  · simp


/-- What the Populate defaults step does to each component. -/
theorem populateDefaults_spec (m : GadgetMetadata) :
    (populateDefaults m).name
        = (if m.name = "" then "TODO: Fill the gadget name" else m.name) ∧
    (populateDefaults m).description
        = (if m.description = "" then "TODO: Fill the gadget description"
           else m.description) ∧
    (populateDefaults m).tracers = some (m.tracers.getD []) ∧
    (populateDefaults m).structs = some (m.structs.getD []) := by
  obtain ⟨n, d, tr, st⟩ := m
  cases tr <;> cases st <;>
    by_cases hn : n = "" <;> by_cases hd : d = "" <;>
      simp [populateDefaults, hn, hd]

/-- After the defaults step, name and description are non-empty and
both tables are non-nil. -/
theorem populateDefaults_ready (m : GadgetMetadata) :
    (populateDefaults m).name ≠ "" ∧ (populateDefaults m).description ≠ "" ∧
    (populateDefaults m).tracers ≠ none ∧ (populateDefaults m).structs ≠ none := by
  obtain ⟨h1, h2, h3, h4⟩ := populateDefaults_spec m
  refine ⟨?_, ?_, ?_, ?_⟩
  · rw [h1]; split
    · simp
    · assumption
  · rw [h2]; split
    · simp
    · assumption
  · rw [h3]; simp
  · rw [h4]; simp

/-- The defaults step is a no-op on a document that is already ready. -/
theorem populateDefaults_fix (m : GadgetMetadata) (hn : m.name ≠ "")
    (hd : m.description ≠ "") (ht : m.tracers ≠ none) (hs : m.structs ≠ none) :
    populateDefaults m = m := by
  obtain ⟨n, d, tr, st⟩ := m
  cases tr with
  | none => exact absurd rfl ht
  | some ltr =>
    cases st with
    | none => exact absurd rfl hs
    | some lst =>
      simp only [] at hn hd
      simp [populateDefaults, hn, hd]

/-- The defaults step is idempotent. -/
theorem populateDefaults_idem (m : GadgetMetadata) :
    populateDefaults (populateDefaults m) = populateDefaults m := by
  obtain ⟨h1, h2, h3, h4⟩ := populateDefaults_ready m
  exact populateDefaults_fix _ h1 h2 h3 h4

/-- The two shapes of a populateTracers run: either the document is
returned as received (no trace map, invalid trace map, or the
unreachable non-structure value), or the located map is valid and the
document goes through the tracer add and the struct population. -/
theorem populateTracers_cases (m : GadgetMetadata) (spec : CollectionSpec) :
    populateTracers m spec = (m, (populateTracers m spec).2) ∨
    ∃ tm sn ms, getTracerMapFromeBPF spec = some tm ∧ validateTraceMap tm = none ∧
      tm.value = some (BtfType.structT sn ms) ∧
      populateTracers m spec =
        (populateStruct (addTracerFor m tm.name sn) sn ms, none) := by
  cases htm : getTracerMapFromeBPF spec with
  | none =>
      left
      simp [populateTracers, htm]
  | some tm =>
    cases hval : validateTraceMap tm with
    | some err =>
        left
        simp [populateTracers, htm, hval]
    | none =>
      cases hv : tm.value with
      | none =>
          left
          simp [populateTracers, htm, hval, hv]
      | some v =>
        cases v with
        | structT sn ms =>
            right
            exact ⟨tm, sn, ms, rfl, hval, hv, by simp [populateTracers, htm, hval, hv]⟩
        | intT a b c =>
            left
            simp [populateTracers, htm, hval, hv]
        | typedefT a b =>
            left
            simp [populateTracers, htm, hval, hv]
        | varT a b =>
            left
            simp [populateTracers, htm, hval, hv]
        | otherT a =>
            left
            simp [populateTracers, htm, hval, hv]

/-- The document component of Populate is the document component of the
inner populateTracers run. -/
theorem Populate_fst (m : GadgetMetadata) (spec : CollectionSpec) :
    (Populate m spec).1 = (populateTracers (populateDefaults m) spec).1 := by
  unfold Populate
  cases h : populateTracers (populateDefaults m) spec with
  | mk m5 e => cases e <;> rfl

/-- The document produced by populateTracers is ready whenever its
input was ready. -/
theorem populateTracers_ready (m : GadgetMetadata) (spec : CollectionSpec)
    (hn : m.name ≠ "") (hd : m.description ≠ "") (ht : m.tracers ≠ none)
    (hs : m.structs ≠ none) :
    (populateTracers m spec).1.name ≠ "" ∧
    (populateTracers m spec).1.description ≠ "" ∧
    (populateTracers m spec).1.tracers ≠ none ∧
    (populateTracers m spec).1.structs ≠ none := by
  rcases populateTracers_cases m spec with hcase | ⟨tm, sn, ms, _, _, _, heq⟩
  · rw [hcase]; exact ⟨hn, hd, ht, hs⟩
  · rw [heq]
    refine ⟨?_, ?_, ?_, ?_⟩
    · rw [populateStruct_name, addTracerFor_name]; exact hn
    · rw [populateStruct_description, addTracerFor_description]; exact hd
    · rw [populateStruct_tracers]; exact addTracerFor_tracers_ne m tm.name sn ht
    · rw [populateStruct_structs]; simp

/-- Running populateTracers a second time on its own output changes
nothing. -/
theorem populateTracers_idem (m : GadgetMetadata) (spec : CollectionSpec) :
    (populateTracers (populateTracers m spec).1 spec).1 = (populateTracers m spec).1 := by
  rcases populateTracers_cases m spec with hcase | ⟨tm, sn, ms, htm, hval, hv, heq⟩
  · have h1 : (populateTracers m spec).1 = m := by rw [hcase]
    rw [h1]
    exact h1
  · rw [heq]
    have hrun2 : populateTracers (populateStruct (addTracerFor m tm.name sn) sn ms) spec
        = (populateStruct (addTracerFor (populateStruct (addTracerFor m tm.name sn) sn ms)
            tm.name sn) sn ms, none) := by
      simp [populateTracers, htm, hval, hv]
    have hfound : tracerUsingMap (populateStruct (addTracerFor m tm.name sn) sn ms)
        tm.name = true := by
      rw [tracerUsingMap_populateStruct]
      exact tracerUsingMap_addTracerFor m tm.name sn
    rw [hrun2, addTracerFor_stable _ _ _ hfound]
    exact populateStruct_idem (addTracerFor m tm.name sn) sn ms


/-- Claim C1: Populate is idempotent: for every Document and compiled
object, running Populate a second time with the same object yields a
Document structurally equal to the one produced by the first run. -/
theorem populate_idempotent (m : GadgetMetadata) (spec : CollectionSpec) :
    (Populate (Populate m spec).1 spec).1 = (Populate m spec).1 := by
  rw [Populate_fst m spec, Populate_fst _ spec]
  have hready := populateDefaults_ready m
  have hr2 := populateTracers_ready (populateDefaults m) spec
    hready.1 hready.2.1 hready.2.2.1 hready.2.2.2
  have hfix : populateDefaults ((populateTracers (populateDefaults m) spec).1)
      = (populateTracers (populateDefaults m) spec).1 :=
    populateDefaults_fix _ hr2.1 hr2.2.1 hr2.2.2.1 hr2.2.2.2
  rw [hfix]
  exact populateTracers_idem (populateDefaults m) spec


/-- A tracer entry whose MapName equals its key makes the tracer search
for that map name succeed. -/
theorem tracerUsingMap_of_lookup (m : GadgetMetadata) (k : String) (t : Tracer)
    (hl : listLookup k (m.tracers.getD []) = some t) (hmn : t.mapName = k) :
    tracerUsingMap m k = true := by
  unfold tracerUsingMap
  rw [List.any_eq_true]
  exact ⟨(k, t), listLookup_mem k t _ hl, by simp [hmn]⟩

/-- Reading the Structs table after the populateStruct update: the
written structure name sees its extended field list, every other key is
untouched. -/
theorem listLookup_popStructMap (L : List (String × Struct)) (s : String)
    (ms : List (String × BtfType)) (k : String) :
    listLookup k (popStructMap L s ms) =
      if s = k then
        some { fields := ((listLookup s L).getD { fields := [] }).fields ++
                 newStructFields
                   ((((listLookup s L).getD { fields := [] }).fields).map Field.name) ms }
      else listLookup k L := by
  simp only [popStructMap]
  rw [listLookup_listInsert]

/-- The Tracers table after populateTracers keeps, at its key, every
tracer whose MapName equals that key. -/
theorem populateTracers_keeps_keyed_tracer (m : GadgetMetadata)
    (spec : CollectionSpec) (k : String) (t : Tracer)
    (hl : listLookup k (m.tracers.getD []) = some t) (hmn : t.mapName = k) :
    listLookup k ((populateTracers m spec).1.tracers.getD []) = some t := by
  rcases populateTracers_cases m spec with hcase | ⟨tm, sn, ms, htm, hval, hv, heq⟩
  · have h1 : (populateTracers m spec).1 = m := by rw [hcase]
    rw [h1]
    exact hl
  · rw [heq]
    rw [populateStruct_tracers]
    unfold addTracerFor
    by_cases hf : tracerUsingMap m tm.name = true
    · rw [if_pos hf]
      exact hl
    · rw [if_neg (by simp [hf])]
      simp only [Option.getD_some]
      have hne : tm.name ≠ k := by
        intro hkeq
        exact hf (hkeq ▸ tracerUsingMap_of_lookup m k t hl hmn)
      rw [listLookup_listInsert]
      rw [if_neg hne]
      exact hl

/-- The Structs table after populateTracers extends every structure
entry in place: the old field list is a prefix of the new one. -/
theorem populateTracers_extends_structs (m : GadgetMetadata)
    (spec : CollectionSpec) (sn : String) (s : Struct)
    (hl : listLookup sn (m.structs.getD []) = some s) :
    ∃ s2 suffix, listLookup sn ((populateTracers m spec).1.structs.getD []) = some s2 ∧
      s2.fields = s.fields ++ suffix := by
  rcases populateTracers_cases m spec with hcase | ⟨tm, sname, ms, htm, hval, hv, heq⟩
  · have h1 : (populateTracers m spec).1 = m := by rw [hcase]
    rw [h1]
    exact ⟨s, [], hl, (List.append_nil s.fields).symm⟩
  · rw [heq]
    rw [populateStruct_structs]
    rw [addTracerFor_structs]
    simp only [Option.getD_some]
    rw [listLookup_popStructMap]
    by_cases hk : sname = sn
    · rw [if_pos hk]
      subst hk
      rw [hl]
      simp only [Option.getD_some]
      exact ⟨_, _, rfl, rfl⟩
    · rw [if_neg hk]
      exact ⟨s, [], hl, (List.append_nil s.fields).symm⟩

/-- The defaults step keeps the contents of both tables. -/
theorem populateDefaults_getD (m : GadgetMetadata) :
    (populateDefaults m).tracers.getD [] = m.tracers.getD [] ∧
    (populateDefaults m).structs.getD [] = m.structs.getD [] := by
  obtain ⟨_, _, h3, h4⟩ := populateDefaults_spec m
  rw [h3, h4]
  simp

/-- Claim C2 (amended): Populate preserves, at its key, every Tracer
entry whose MapName equals that key (an entry keyed by the located trace
map whose MapName differs can be overwritten, because the guard of the
tracer add compares MapName values and not keys), and it preserves every
existing Field unchanged, only ever appending new fields after the
existing ones. -/
theorem populate_monotonic (m : GadgetMetadata) (spec : CollectionSpec) :
    (∀ k t, listLookup k (m.tracers.getD []) = some t → t.mapName = k →
      listLookup k ((Populate m spec).1.tracers.getD []) = some t) ∧
    (∀ sn s, listLookup sn (m.structs.getD []) = some s →
      ∃ s2 suffix, listLookup sn ((Populate m spec).1.structs.getD []) = some s2 ∧
        s2.fields = s.fields ++ suffix) := by
  rw [Populate_fst]
  obtain ⟨hdt, hds⟩ := populateDefaults_getD m
  constructor
  · intro k t hl hmn
    exact populateTracers_keeps_keyed_tracer (populateDefaults m) spec k t
      (by rw [hdt]; exact hl) hmn
  · intro sn s hl
    exact populateTracers_extends_structs (populateDefaults m) spec sn s
      (by rw [hds]; exact hl)

/-- The tracer of the C2 counterexample: keyed by the located map name
but using a different map. -/
def c2Tracer : Tracer := { mapName := "other_map", structName := "s" }

/-- The document of the C2 counterexample. -/
def c2Meta : GadgetMetadata :=
  { name := "g", description := "d"
  , tracers := some [("events", c2Tracer)], structs := some [] }

/-- The compiled object of the C2 counterexample: a marked ring-buffer
map named events with a structure value. -/
def c2Spec : CollectionSpec :=
  { maps := [("events",
      { name := "events", mtype := MapType.ringBuf
      , value := some (BtfType.structT "event_t" []) })]
  , types := [BtfType.varT "gadget_trace_map_events" (BtfType.otherT "v")] }

/-- Claim C2 counterexample: the tracer entry keyed by the located map
name, whose MapName differs from that key, is present before Populate
and overwritten by it, so Populate does not preserve every pre-existing
Tracer entry. -/
theorem populate_monotonic_counterexample :
    listLookup "events" (c2Meta.tracers.getD []) = some c2Tracer ∧
    listLookup "events" ((Populate c2Meta c2Spec).1.tracers.getD []) ≠ some c2Tracer := by
  decide

/-- The authored field of the C2 witness document. -/
def w2Field : Field :=
  { name := "pid"
  , description := "authored"
  , attributes :=
    { width := 7
    , minWidth := 1
    , maxWidth := 9
    , alignment := "right"
    , hidden := true
    , ellipsis := "start"
    , template := "tpl" }
  , annotations := [("color", "red")] }

/-- The pre-populated structure of the C2 witness document. -/
def w2Struct : Struct := { fields := [w2Field] }

/-- The document of the C2 witness: one tracer whose MapName equals its
key and one pre-populated structure. -/
def w2Meta : GadgetMetadata :=
  { name := "g", description := "d"
  , tracers := some [("events", { mapName := "events", structName := "event_t" })]
  , structs := some [("event_t", w2Struct)] }

/-- The compiled object of the C2 witness: the located map value gains a
second member beyond the declared field. -/
def w2Spec : CollectionSpec :=
  { maps := [("events",
      { name := "events", mtype := MapType.ringBuf
      , value := some (BtfType.structT "event_t"
          [("pid", BtfType.intT "__u32" 4 IntEncoding.unsigned),
           ("uid", BtfType.intT "__u32" 4 IntEncoding.unsigned)]) })]
  , types := [BtfType.varT "gadget_trace_map_events" (BtfType.otherT "v")] }

/-- Claim C2 witness: on a concrete document, the kept tracer and the
extension-only update of the declared structure. -/
theorem populate_monotonic_witness :
    listLookup "events" ((Populate w2Meta w2Spec).1.tracers.getD []) =
      some { mapName := "events", structName := "event_t" } ∧
    ∃ s2 suffix,
      listLookup "event_t" ((Populate w2Meta w2Spec).1.structs.getD []) = some s2 ∧
      s2.fields = w2Struct.fields ++ suffix := by
  refine ⟨?_, ?_⟩
  · exact (populate_monotonic w2Meta w2Spec).1 "events"
      { mapName := "events", structName := "event_t" } (by decide) (by decide)
  · exact (populate_monotonic w2Meta w2Spec).2 "event_t" w2Struct (by decide)


/-- Every field of a structure entry after populateStruct either was
present in the corresponding entry before, or is the field synthesized
for a compiled member that passes both name-based skip guards. -/
theorem populateStruct_skip_rules (m : GadgetMetadata) (sname : String)
    (ms : List (String × BtfType)) (sn : String) (s2 : Struct)
    (hl : listLookup sn ((populateStruct m sname ms).structs.getD []) = some s2)
    (f : Field) (hf : f ∈ s2.fields) :
    (∃ s, listLookup sn (m.structs.getD []) = some s ∧ f ∈ s.fields) ∨
    (∃ mem, mem ∈ ms ∧ f = synthesizeField mem.1 mem.2 ∧
      mem.1 ≠ "timestamp" ∧ typeName mem.2 ≠ MntNsIdTypeName) := by
  rw [populateStruct_structs] at hl
  simp only [Option.getD_some] at hl
  rw [listLookup_popStructMap] at hl
  by_cases hk : sname = sn
  · rw [if_pos hk] at hl
    have hs2 : s2.fields =
        ((listLookup sname (m.structs.getD [])).getD { fields := [] }).fields ++
        newStructFields
          ((((listLookup sname (m.structs.getD [])).getD { fields := [] }).fields).map
            Field.name) ms := by
      subst hk
      injection hl with h
      rw [← h]
    rw [hs2] at hf
    rcases List.mem_append.mp hf with hleft | hright
    · cases hlk : listLookup sname (m.structs.getD []) with
      | none =>
          rw [hlk] at hleft
          simp at hleft
      | some s =>
          rw [hlk] at hleft
          simp only [Option.getD_some] at hleft
          subst hk
          exact Or.inl ⟨s, hlk, hleft⟩
    · obtain ⟨mem, hmem, h1, h2, _, heqf⟩ := mem_newStructFields.mp hright
      exact Or.inr ⟨mem, hmem, heqf, h1, h2⟩
  · rw [if_neg hk] at hl
    exact Or.inl ⟨s2, hl, hf⟩

/-- Claim C6: the skip rules hold for every synthesis run: every field
present after Populate either was declared before the call or is the
synthesis of a compiled member whose name is not exactly timestamp and
whose type name does not match the reserved namespace-id marker type;
in particular no field is ever appended for a timestamp member or for a
member of the marker type. -/
theorem populate_skip_rules (m : GadgetMetadata) (spec : CollectionSpec)
    (sn : String) (s2 : Struct)
    (hl : listLookup sn ((Populate m spec).1.structs.getD []) = some s2)
    (f : Field) (hf : f ∈ s2.fields) :
    (∃ s, listLookup sn (m.structs.getD []) = some s ∧ f ∈ s.fields) ∨
    (∃ tm snm ms mem, getTracerMapFromeBPF spec = some tm ∧
      tm.value = some (BtfType.structT snm ms) ∧ mem ∈ ms ∧
      f = synthesizeField mem.1 mem.2 ∧
      mem.1 ≠ "timestamp" ∧ typeName mem.2 ≠ MntNsIdTypeName) := by
  rw [Populate_fst] at hl
  obtain ⟨hdt, hds⟩ := populateDefaults_getD m
  rcases populateTracers_cases (populateDefaults m) spec with
    hcase | ⟨tm, snm, ms, htm, hval, hv, heq⟩
  · have h1 : (populateTracers (populateDefaults m) spec).1 = populateDefaults m := by
      rw [hcase]
    rw [h1, hds] at hl
    exact Or.inl ⟨s2, hl, hf⟩
  · rw [heq] at hl
    rcases populateStruct_skip_rules _ snm ms sn s2 hl f hf with ⟨s, hls, hfs⟩ | hsynth
    · rw [addTracerFor_structs, hds] at hls
      exact Or.inl ⟨s, hls, hfs⟩
    · obtain ⟨mem, hmem, heqf, h1, h2⟩ := hsynth
      exact Or.inr ⟨tm, snm, ms, mem, htm, hv, hmem, heqf, h1, h2⟩

/-- The compiled object of the C6 witness: the located map value has a
normal member, a timestamp member and a namespace-id-typed member. -/
def c6Spec : CollectionSpec :=
  { maps := [("events",
      { name := "events", mtype := MapType.ringBuf
      , value := some (BtfType.structT "event_t"
          [("pid", BtfType.intT "__u32" 4 IntEncoding.unsigned),
           ("timestamp", BtfType.intT "__u64" 8 IntEncoding.unsigned),
           ("mntns", BtfType.typedefT "mnt_ns_id_t"
             (BtfType.intT "__u64" 8 IntEncoding.unsigned))]) })]
  , types := [BtfType.varT "gadget_trace_map_events" (BtfType.otherT "v")] }

/-- The empty document of the C6 witness. -/
def c6Meta : GadgetMetadata :=
  { name := "", description := "", tracers := none, structs := none }

/-- Claim C6 witness: on a fresh synthesis run over the C6 object, the
one synthesized field satisfies the skip-rule disjunction. -/
theorem populate_skip_rules_witness :
    (∃ s, listLookup "event_t" (c6Meta.structs.getD []) = some s ∧
      synthesizeField "pid" (BtfType.intT "__u32" 4 IntEncoding.unsigned) ∈ s.fields) ∨
    (∃ tm snm ms mem, getTracerMapFromeBPF c6Spec = some tm ∧
      tm.value = some (BtfType.structT snm ms) ∧ mem ∈ ms ∧
      synthesizeField "pid" (BtfType.intT "__u32" 4 IntEncoding.unsigned)
        = synthesizeField mem.1 mem.2 ∧
      mem.1 ≠ "timestamp" ∧ typeName mem.2 ≠ MntNsIdTypeName) :=
  populate_skip_rules c6Meta c6Spec "event_t"
    { fields := [synthesizeField "pid" (BtfType.intT "__u32" 4 IntEncoding.unsigned)] }
    (by decide)
    (synthesizeField "pid" (BtfType.intT "__u32" 4 IntEncoding.unsigned))
    (by decide)


/-- Whether some variable entry of a type table carries the marker: the
executable form of the no-marker condition. -/
def hasMarkedVar (pre : String) : List BtfType → Bool
  | [] => false
  | BtfType.varT n _ :: rest => strHasPrefix pre n || hasMarkedVar pre rest
  | _ :: rest => hasMarkedVar pre rest

/-- When no variable of the type table carries the marker, the scan
returns the empty string. -/
theorem gadgetIdentScan_of_no_var (pre : String) :
    ∀ types : List BtfType, hasMarkedVar pre types = false →
      gadgetIdentScan pre types = ""
  | [], _ => rfl
  | t :: rest, h => by
      cases t with
      | varT n ty =>
          simp only [hasMarkedVar, Bool.or_eq_false_iff] at h
          simp only [gadgetIdentScan, h.1]
          simp [gadgetIdentScan_of_no_var pre rest h.2]
      | intT a b c => exact gadgetIdentScan_of_no_var pre rest h
      | typedefT a b => exact gadgetIdentScan_of_no_var pre rest h
      | structT a b => exact gadgetIdentScan_of_no_var pre rest h
      | otherT a => exact gadgetIdentScan_of_no_var pre rest h

/-- A non-empty scan result comes from a marked variable entry: the
result is the name of some variable carrying the marker, with the
marker removed. -/
theorem gadgetIdentScan_ne_empty (pre : String) :
    ∀ types : List BtfType, gadgetIdentScan pre types ≠ "" →
      ∃ n ty, BtfType.varT n ty ∈ types ∧ strHasPrefix pre n = true ∧
        gadgetIdentScan pre types = strTrimPrefix pre n
  | [], h => absurd rfl h
  | t :: rest, h => by
      cases t with
      | varT n ty =>
          by_cases hn : strHasPrefix pre n = true
          · refine ⟨n, ty, List.mem_cons_self _ _, hn, ?_⟩
            simp [gadgetIdentScan, hn]
          · have hrest : gadgetIdentScan pre rest ≠ "" := by
              simpa [gadgetIdentScan, hn] using h
            obtain ⟨n2, ty2, hmem, hp, heq⟩ := gadgetIdentScan_ne_empty pre rest hrest
            refine ⟨n2, ty2, List.mem_cons_of_mem _ hmem, hp, ?_⟩
            simpa [gadgetIdentScan, hn] using heq
      | intT a b c =>
          obtain ⟨n2, ty2, hmem, hp, heq⟩ := gadgetIdentScan_ne_empty pre rest h
          exact ⟨n2, ty2, List.mem_cons_of_mem _ hmem, hp, heq⟩
      | typedefT a b =>
          obtain ⟨n2, ty2, hmem, hp, heq⟩ := gadgetIdentScan_ne_empty pre rest h
          exact ⟨n2, ty2, List.mem_cons_of_mem _ hmem, hp, heq⟩
      | structT a b =>
          obtain ⟨n2, ty2, hmem, hp, heq⟩ := gadgetIdentScan_ne_empty pre rest h
          exact ⟨n2, ty2, List.mem_cons_of_mem _ hmem, hp, heq⟩
      | otherT a =>
          obtain ⟨n2, ty2, hmem, hp, heq⟩ := gadgetIdentScan_ne_empty pre rest h
          exact ⟨n2, ty2, List.mem_cons_of_mem _ hmem, hp, heq⟩

/-- Claim C7 (amended): when the type table has no variable carrying the
trace-map marker and the map table additionally has no entry keyed by
the empty string, Populate returns success and leaves Tracers and
Structs exactly as initialized: empty maps when they started nil and
otherwise unchanged.  (Without the empty-string proviso the scan result
is the empty string, which is looked up in the map table and can select
a map named exactly the empty string; see the counterexample.) -/
theorem populate_no_marker (m : GadgetMetadata) (spec : CollectionSpec)
    (hvar : hasMarkedVar traceMapMarker spec.types = false)
    (hempty : (listLookup "" spec.maps).isNone = true) :
    (Populate m spec).2 = none ∧
    (Populate m spec).1.tracers = some (m.tracers.getD []) ∧
    (Populate m spec).1.structs = some (m.structs.getD []) := by
  have hscan : getGadgetIdentByPrefix spec traceMapMarker = "" :=
    gadgetIdentScan_of_no_var traceMapMarker spec.types hvar
  have htm : getTracerMapFromeBPF spec = none := by
    unfold getTracerMapFromeBPF
    rw [hscan]
    exact Option.isNone_iff_eq_none.mp hempty
  have hpt : populateTracers (populateDefaults m) spec = (populateDefaults m, none) := by
    simp [populateTracers, htm]
  have hp : Populate m spec = (populateDefaults m, none) := by
    unfold Populate
    rw [hpt]
  rw [hp]
  obtain ⟨_, _, h3, h4⟩ := populateDefaults_spec m
  exact ⟨rfl, h3, h4⟩

/-- The document of the C7 counterexample. -/
def c7Meta : GadgetMetadata :=
  { name := "g", description := "d", tracers := some [], structs := some [] }

/-- The compiled object of the C7 counterexample: no variable carries
the marker, but the map table holds a well-formed map named exactly the
empty string. -/
def c7Spec : CollectionSpec :=
  { maps := [("",
      { name := "", mtype := MapType.ringBuf
      , value := some (BtfType.structT "event_t"
          [("pid", BtfType.intT "__u32" 4 IntEncoding.unsigned)]) })]
  , types := [BtfType.varT "other_var" (BtfType.otherT "v")] }

/-- Claim C7 counterexample: a compiled object with no marker variable
whose map table holds a map named the empty string: Populate still
succeeds but synthesizes a tracer and a struct, so Tracers and Structs
are not left as initialized. -/
theorem populate_no_marker_counterexample :
    hasMarkedVar traceMapMarker c7Spec.types = false ∧
    (Populate c7Meta c7Spec).1.tracers ≠ some (c7Meta.tracers.getD []) := by
  constructor
  · decide
  · decide

/-- The document of the C7 witness. -/
def w7Meta : GadgetMetadata :=
  { name := "mygadget", description := "", tracers := none
  , structs := some [("s", { fields := [] })] }

/-- The compiled object of the C7 witness: unmarked variable, no
empty-named map. -/
def w7Spec : CollectionSpec :=
  { maps := [("other", { name := "other", mtype := MapType.hash, value := none })]
  , types := [BtfType.varT "gadget_other" (BtfType.otherT "")] }

/-- Claim C7 witness: the no-op path on a concrete unmarked object. -/
theorem populate_no_marker_witness :
    (Populate w7Meta w7Spec).2 = none ∧
    (Populate w7Meta w7Spec).1.tracers = some (w7Meta.tracers.getD []) ∧
    (Populate w7Meta w7Spec).1.structs = some (w7Meta.structs.getD []) :=
  populate_no_marker w7Meta w7Spec (by decide) (by decide)

/-- The compiled object of the C9 theorem: no marker variable, and a
ring-buffer map named exactly the empty string. -/
def c9Spec : CollectionSpec :=
  { maps := [("",
      { name := "", mtype := MapType.ringBuf
      , value := some (BtfType.structT "event_t"
          [("pid", BtfType.intT "__u32" 4 IntEncoding.unsigned)]) })]
  , types := [BtfType.varT "unrelated" (BtfType.otherT "v")] }

/-- The map of the C9 theorem. -/
def c9Map : MapSpec :=
  { name := "", mtype := MapType.ringBuf
  , value := some (BtfType.structT "event_t"
      [("pid", BtfType.intT "__u32" 4 IntEncoding.unsigned)]) }

/-- The empty document of the C9 theorem. -/
def c9Meta : GadgetMetadata :=
  { name := "", description := "", tracers := none, structs := none }

/-- Claim C9: the not-found result of the locator is the empty string
and is indistinguishable from a marker variable named exactly the bare
marker: the scan of a table whose only variable is unmarked gives the
empty string, as does the scan of a variable named exactly the marker;
the trace-map lookup then reads key empty-string in the map table, and
on the C9 object, which has a map named the empty string, the no-op
path is not taken: that map is located and a tracer is synthesized for
it. -/
theorem locator_not_found_is_empty_string :
    gadgetIdentScan traceMapMarker c9Spec.types = "" ∧
    gadgetIdentScan traceMapMarker [BtfType.varT traceMapMarker (BtfType.otherT "")] = "" ∧
    getTracerMapFromeBPF c9Spec = some c9Map ∧
    listLookup "" ((Populate c9Meta c9Spec).1.tracers.getD []) =
      some { mapName := "", structName := "event_t" } := by
  refine ⟨by decide, by decide, rfl, by decide⟩

/-- Claim C10: the locator matches only variable entries: a non-empty
result is the marker-stripped name of some variable entry carrying the
marker, and when no variable carries the marker (even if structures or
typedefs do) the result is the empty string. -/
theorem locator_matches_only_vars :
    (∀ (spec : CollectionSpec) (pre : String), getGadgetIdentByPrefix spec pre ≠ "" →
      ∃ n ty, BtfType.varT n ty ∈ spec.types ∧ strHasPrefix pre n = true ∧
        getGadgetIdentByPrefix spec pre = strTrimPrefix pre n) ∧
    (∀ (spec : CollectionSpec) (pre : String),
      hasMarkedVar pre spec.types = false →
      getGadgetIdentByPrefix spec pre = "") := by
  constructor
  · intro spec pre h
    exact gadgetIdentScan_ne_empty pre spec.types h
  · intro spec pre h
    exact gadgetIdentScan_of_no_var pre spec.types h

/-- The compiled object of the first C10 witness: a marked structure, a
marked typedef and a marked variable. -/
def w10aSpec : CollectionSpec :=
  { maps := []
  , types := [BtfType.structT "gadget_trace_map_s" [],
              BtfType.typedefT "gadget_trace_map_t" (BtfType.otherT ""),
              BtfType.varT "gadget_trace_map_events" (BtfType.otherT "")] }

/-- The compiled object of the second C10 witness: marked entries that
are not variables, and an unmarked variable. -/
def w10bSpec : CollectionSpec :=
  { maps := []
  , types := [BtfType.structT "gadget_trace_map_s" [],
              BtfType.typedefT "gadget_trace_map_t" (BtfType.otherT ""),
              BtfType.varT "other" (BtfType.otherT "")] }

/-- Claim C10 witness: on concrete tables, the non-empty result comes
from the marked variable and marked non-variables alone give the empty
result. -/
theorem locator_matches_only_vars_witness :
    (∃ n ty, BtfType.varT n ty ∈ w10aSpec.types ∧
      strHasPrefix traceMapMarker n = true ∧
      getGadgetIdentByPrefix w10aSpec traceMapMarker = strTrimPrefix traceMapMarker n) ∧
    getGadgetIdentByPrefix w10bSpec traceMapMarker = "" := by
  constructor
  · exact locator_matches_only_vars.1 w10aSpec traceMapMarker (by decide)
  · exact locator_matches_only_vars.2 w10bSpec traceMapMarker (by decide)


/-- An Option is some exactly when isSome holds; bridging helper for the
fold lemmas. -/
theorem isSome_exists {α : Type} (o : Option α) :
    o.isSome = true ↔ ∃ v, o = some v := by
  cases o <;> simp

/-- Claim C3: Validate aggregates all violations instead of stopping at
the first: an empty name always contributes its message, more than one
tracer always contributes the too-many-tracers message, and every
declared field missing from the compiled structure contributes its
unknown-field message, all within the single returned error value. -/
theorem validate_aggregates (m : GadgetMetadata) (spec : CollectionSpec) :
    (m.name = "" → "gadget name is required" ∈ Validate m spec) ∧
    ((m.tracers.getD []).length > 1 → "only one tracer is allowed" ∈ Validate m spec) ∧
    (∀ sn st f, listLookup sn (m.structs.getD []) = some st → f ∈ st.fields →
      ∀ ms, typesStructByName spec.types sn = some ms → f.name ∉ ms.map Prod.fst →
      ("field " ++ quoteName f.name ++ " not found in eBPF struct " ++ quoteName sn)
        ∈ Validate m spec) := by
  refine ⟨?_, ?_, ?_⟩
  · intro hname
    unfold Validate
    rw [List.mem_append, List.mem_append]
    exact Or.inl (Or.inl (by simp [hname]))
  · intro hlen
    unfold Validate validateTracers
    rw [List.mem_append, List.mem_append]
    refine Or.inl (Or.inr ?_)
    rw [List.mem_append]
    exact Or.inl (by simp [hlen])
  · intro sn st f hst hf ms hms hmiss
    unfold Validate
    rw [List.mem_append]
    refine Or.inr ?_
    unfold validateStructs
    rw [List.mem_flatMap]
    refine ⟨(sn, st), listLookup_mem sn st _ hst, ?_⟩
    unfold structEntryErrs
    rw [hms]
    have hin : (listLookup f.name
        (st.fields.foldl (fun acc f2 => listInsert f2.name f2 acc) [])).isSome = true := by
      rw [listLookup_foldl_listInsert Field.name]
      exact Or.inl (List.mem_map.mpr ⟨f, hf, rfl⟩)
    obtain ⟨v, hv⟩ := (isSome_exists _).mp hin
    have hmem : (f.name, v) ∈
        st.fields.foldl (fun acc f2 => listInsert f2.name f2 acc) [] :=
      listLookup_mem f.name v _ hv
    rw [List.mem_filterMap]
    refine ⟨(f.name, v), hmem, ?_⟩
    have hnone : (listLookup f.name
        (ms.foldl (fun acc mem => listInsert mem.1 mem acc) [])).isSome = false := by
      rw [Bool.eq_false_iff]
      intro hcontra
      rw [listLookup_foldl_listInsert Prod.fst] at hcontra
      rcases hcontra with hcl | hcr
      · exact hmiss hcl
      · simp [listLookup] at hcr
    rw [Option.isNone_iff_eq_none.mpr (Option.not_isSome_iff_eq_none.mp (by simp [hnone]))]
    simp

/-- The declared field of the C3 witness, missing from the compiled
structure. -/
def c3Field : Field :=
  { name := "missing_field"
  , description := ""
  , attributes :=
    { width := 0
    , minWidth := 0
    , maxWidth := 0
    , alignment := ""
    , hidden := false
    , ellipsis := ""
    , template := "" }
  , annotations := [] }

/-- The declared structure of the C3 witness. -/
def c3Struct : Struct := { fields := [c3Field] }

/-- The two-tracer document of the C3 witness. -/
def c3Meta : GadgetMetadata :=
  { name := "g", description := ""
  , tracers := some [("a", { mapName := "m1", structName := "s1" }),
                     ("b", { mapName := "m2", structName := "s2" })]
  , structs := some [("event_t", c3Struct)] }

/-- The compiled members of the C3 structure. -/
def c3Members : List (String × BtfType) :=
  [("pid", BtfType.intT "__u32" 4 IntEncoding.unsigned)]

/-- The compiled object of the C3 witness. -/
def c3Spec : CollectionSpec :=
  { maps := [], types := [BtfType.structT "event_t" c3Members] }

/-- Claim C3 witness: the two independent findings both appear in the
single error value returned by Validate on the C3 document. -/
theorem validate_aggregates_witness :
    "only one tracer is allowed" ∈ Validate c3Meta c3Spec ∧
    ("field " ++ quoteName "missing_field" ++ " not found in eBPF struct " ++
      quoteName "event_t") ∈ Validate c3Meta c3Spec := by
  constructor
  · exact (validate_aggregates c3Meta c3Spec).2.1 (by decide)
  · exact (validate_aggregates c3Meta c3Spec).2.2 "event_t" c3Struct c3Field
      (by decide) (by decide) c3Members rfl (by decide)


/-- Whether a btf type is directly a structure. -/
def isStructType : BtfType → Bool
  | .structT _ _ => true
  | _ => false

/-- Claim C5 (amended): for a trace map of an accepted kind whose value
type is present, validateTraceMap reports the value-kind error exactly
when the declared value type is not directly a structure; no alias
resolution is performed on the value, so a typedef chain terminating in
a structure is also rejected. -/
theorem trace_map_value_kind (tm : MapSpec)
    (hkind : tm.mtype = MapType.ringBuf ∨ tm.mtype = MapType.perfEventArray)
    (v : BtfType) (hv : tm.value = some v) :
    validateTraceMap tm =
      if isStructType v = true then none
      else some ("value of BPF map " ++ quoteName tm.name ++ " is not a structure") := by
  unfold validateTraceMap
  have hckind : ¬ (tm.mtype ≠ MapType.ringBuf ∧ tm.mtype ≠ MapType.perfEventArray) := by
    rcases hkind with h | h <;> simp [h]
  rw [if_neg hckind, hv]
  cases v <;> simp [isStructType]

/-- The typedef-valued trace map of the C5 counterexample. -/
def c5Value : BtfType := BtfType.typedefT "event_alias" (BtfType.structT "event_t" [])

/-- The accepted-kind map of the C5 counterexample. -/
def c5Map : MapSpec :=
  { name := "events", mtype := MapType.ringBuf, value := some c5Value }

/-- Claim C5 counterexample: a ring-buffer map whose value type is a
typedef chain terminating in a structure: the alias-resolved value kind
is a structure, yet validateTraceMap reports the value-kind error, so
such a map is not accepted without error. -/
theorem trace_map_value_kind_counterexample :
    c5Map.mtype = MapType.ringBuf ∧
    resolveAliases c5Value = BtfType.structT "event_t" [] ∧
    validateTraceMap c5Map =
      some ("value of BPF map " ++ quoteName "events" ++ " is not a structure") := by
  refine ⟨by decide, rfl, by decide⟩

/-- The struct-valued map of the C5 witness. -/
def w5Map : MapSpec :=
  { name := "events", mtype := MapType.perfEventArray
  , value := some (BtfType.structT "event_t" []) }

/-- Claim C5 witness: the amended equation at a concrete accepted map
with a direct structure value. -/
theorem trace_map_value_kind_witness :
    validateTraceMap w5Map =
      if isStructType (BtfType.structT "event_t" []) = true then none
      else some ("value of BPF map " ++ quoteName w5Map.name ++ " is not a structure") :=
  trace_map_value_kind w5Map (Or.inr rfl) (BtfType.structT "event_t" []) rfl

/-- Folding a loop body that reads the carried state but never writes it
returns the state as received, with the accumulated output of each
iteration. -/
theorem foldl_carry {σ α β : Type} (g : σ → α → List β) :
    ∀ (l : List α) (st : σ) (es : List β),
      l.foldl (fun acc p => (acc.1, acc.2 ++ g acc.1 p)) (st, es)
        = (st, es ++ l.flatMap (g st))
  | [], st, es => by simp
  | p :: l, st, es => by
      rw [List.foldl_cons]
      have h := foldl_carry g l st (es ++ g st p)
      simp only [] at h
      rw [h]
      simp [List.flatMap_cons, List.append_assoc]

/-- Claim C8: Validate is read-only: the state-threaded run of Validate
returns the document and the compiled object exactly as received, for
every input and whether or not violations are found, and its error
component is exactly the aggregate of Validate. -/
theorem validate_read_only (m : GadgetMetadata) (spec : CollectionSpec) :
    (ValidateRun m spec).1 = (m, spec) ∧ (ValidateRun m spec).2 = Validate m spec := by
  have ht : validateTracersRun (m, spec) =
      ((m, spec), validateTracers m spec) :=
    foldl_carry (fun (st : GadgetMetadata × CollectionSpec) (p : String × Tracer) => tracerEntryErrs st.1 st.2 p.1 p.2)
      ((m, spec).1.tracers.getD []) (m, spec)
      (if ((m, spec).1.tracers.getD []).length > 1
        then ["only one tracer is allowed"] else [])
  have hs : validateStructsRun (m, spec) =
      ((m, spec), validateStructs m spec) :=
    foldl_carry (fun (st : GadgetMetadata × CollectionSpec) (p : String × Struct) => structEntryErrs st.2 p.1 p.2)
      ((m, spec).1.structs.getD []) (m, spec) []
  unfold ValidateRun
  rw [ht]
  simp only []
  rw [hs]
  unfold Validate
  constructor
  · rfl
  · simp


/-- On the self-referential typedef, the recursion makes no progress at
any fuel bound: every recursive call lands back on the same typedef. -/
theorem getUnderlyingTypeFuel_cyclic :
    ∀ fuel, getUnderlyingTypeFuel cyclicTypeTable fuel 0 = none
  | 0 => rfl
  | fuel + 1 => by
      have hl : listLookup 0 cyclicTypeTable = some (TypeNode.typedefNode "a" 0) := rfl
      simp only [getUnderlyingTypeFuel, hl]
      exact getUnderlyingTypeFuel_cyclic fuel

/-- Claim C4 (amended): the typedef-chain resolution has no depth cap
and no MalformedTypeChain error value: on the cyclic reference table the
fuel-indexed run of the recursion completes at no fuel bound (the Go
recursion never terminates there instead of failing), while on the
acyclic chains representable as BtfType values it always terminates
successfully with a non-typedef type and a nil error. -/
theorem alias_resolution_no_guard :
    (∀ fuel, getUnderlyingTypeFuel cyclicTypeTable fuel 0 = none) ∧
    (∀ (n : String) (t : BtfType), isTypedef (getUnderlyingType n t) = false) :=
  ⟨getUnderlyingTypeFuel_cyclic, getUnderlyingType_not_typedef⟩

/-- Claim C4 counterexample: after one thousand resolution steps on the
smallest cyclic alias chain the recursion has neither returned a type
nor failed with any error, refuting that resolution stops after a
bounded number of steps with a MalformedTypeChain failure. -/
theorem alias_resolution_counterexample :
    getUnderlyingTypeFuel cyclicTypeTable 1000 0 = none :=
  getUnderlyingTypeFuel_cyclic 1000

end Types
